import Mathlib

/-!
Verification of the backend's pagination, server-capacity, CRUD and
middleware helpers, shallowly embedded from the TypeScript source.

Conventions of the embedding:
* JavaScript numbers that hold integers are modelled as `Int`
  (database counters, ids, page/limit).
* Real-valued arithmetic (`Math.ceil(total / limit)`, utilization
  percentages) is modelled in `ℚ`.
* `parseInt(x) || d` is modelled by an `Option Int` query value (`none`
  for an absent parameter or `NaN`) with the JS falsiness of `0`
  made explicit.
* Database tables are lists of rows; `findUnique` is `List.find?`,
  `update` rewrites the matching row in place.
-/

namespace Backend

/-! ### Pagination utility (utils/pagination) -/

structure PaginationOptions where
  maxLimit : Int
  defaultLimit : Int

/-- Source defaults: `maxLimit = 100`, `defaultLimit = 10`. -/
def defaultPaginationOptions : PaginationOptions := ⟨100, 10⟩

/-- The `page`/`limit` query parameters after `parseInt`: `none` models an
absent parameter or a `NaN` parse result. -/
structure PaginationQuery where
  page : Option Int
  limit : Option Int

structure PaginationParams where
  page : Int
  limit : Int
  skip : Int
deriving DecidableEq, Repr

/-- `parseInt(v) || d`: an absent/`NaN` value and the falsy `0` both fall
back to the default `d`. -/
def parsedOr (v : Option Int) (d : Int) : Int :=
  match v with
  | none => d
  | some n => if n = 0 then d else n

/-- `getPaginationParams`: clamp `page` to `≥ 1` and `limit` to
`[1, maxLimit]`, `skip = (page - 1) * limit`. -/
def getPaginationParams (q : PaginationQuery) (opts : PaginationOptions) :
    PaginationParams :=
  let page := max 1 (parsedOr q.page 1)
  let limit := max 1 (min (parsedOr q.limit opts.defaultLimit) opts.maxLimit)
  { page := page, limit := limit, skip := (page - 1) * limit }

structure PaginationMeta where
  page : Int
  limit : Int
  total : Int
  totalPages : Int
  hasNext : Bool
  hasPrev : Bool
deriving DecidableEq, Repr

/-- `createPaginationMeta`: `totalPages = Math.ceil(total / limit)`,
`hasNext = page < totalPages`, `hasPrev = page > 1`. -/
def createPaginationMeta (page limit total : Int) : PaginationMeta :=
  let totalPages : Int := ⌈(total : ℚ) / (limit : ℚ)⌉
  { page := page, limit := limit, total := total, totalPages := totalPages,
    hasNext := decide (page < totalPages), hasPrev := decide (1 < page) }

structure PaginatedResponse (T : Type) where
  success : Bool
  data : List T
  pagination : PaginationMeta

/-- `handlePagination`: compute the params, run the count and data
functions, and assemble the paginated response. -/
def handlePagination {T : Type} (q : PaginationQuery) (total : Int)
    (dataFn : PaginationParams → List T) (opts : PaginationOptions) :
    PaginatedResponse T :=
  let p := getPaginationParams q opts
  { success := true
    data := dataFn p
    pagination := createPaginationMeta p.page p.limit total }

/-- The data function every controller passes to `handlePagination`:
`findMany({skip, take: limit})`, i.e. drop `skip` rows then take `limit`. -/
def takeDataFn {T : Type} (rows : List T) (p : PaginationParams) : List T :=
  (rows.drop p.skip.toNat).take p.limit.toNat

theorem getPaginationParams_page_pos (q : PaginationQuery)
    (opts : PaginationOptions) : 1 ≤ (getPaginationParams q opts).page :=
  le_max_left _ _

theorem getPaginationParams_limit_pos (q : PaginationQuery)
    (opts : PaginationOptions) : 1 ≤ (getPaginationParams q opts).limit :=
  le_max_left _ _

/-- For `1 ≤ l`, `p < ⌈t / l⌉` over `ℚ` is `p * l < t`. -/
theorem lt_ceil_div_iff (p l t : Int) (hl : 1 ≤ l) :
    p < ⌈(t : ℚ) / (l : ℚ)⌉ ↔ p * l < t := by
  have hl0 : (0 : ℚ) < (l : ℚ) := by exact_mod_cast lt_of_lt_of_le one_pos hl
  rw [Int.lt_ceil, lt_div_iff₀ hl0]
  exact_mod_cast Iff.rfl

/-- C1. `handlePagination` with the standard skip/take data function:
the data function is called with `take = limit` (so at most `limit`
items come back), `totalPages = ⌈total / limit⌉`,
`hasNext ↔ page * limit < total`, and `hasPrev ↔ page > 1`. -/
theorem handlePagination_spec {T : Type} (q : PaginationQuery)
    (opts : PaginationOptions) (rows : List T) :
    (handlePagination q (rows.length : Int) (takeDataFn rows) opts).data
      = takeDataFn rows (getPaginationParams q opts) ∧
    ((handlePagination q (rows.length : Int) (takeDataFn rows) opts).data.length : Int)
      ≤ (getPaginationParams q opts).limit ∧
    (handlePagination q (rows.length : Int) (takeDataFn rows) opts).pagination.totalPages
      = ⌈((rows.length : Int) : ℚ) / ((getPaginationParams q opts).limit : ℚ)⌉ ∧
    ((handlePagination q (rows.length : Int) (takeDataFn rows) opts).pagination.hasNext = true
      ↔ (getPaginationParams q opts).page * (getPaginationParams q opts).limit
          < (rows.length : Int)) ∧
    ((handlePagination q (rows.length : Int) (takeDataFn rows) opts).pagination.hasPrev = true
      ↔ 1 < (getPaginationParams q opts).page) := by
  have hlim := getPaginationParams_limit_pos q opts
  refine ⟨rfl, ?_, rfl, ?_, ?_⟩
  · have hlen : (takeDataFn rows (getPaginationParams q opts)).length
        ≤ (getPaginationParams q opts).limit.toNat := by
      unfold takeDataFn
      simp
    calc ((handlePagination q (rows.length : Int) (takeDataFn rows) opts).data.length : Int)
        = ((takeDataFn rows (getPaginationParams q opts)).length : Int) := rfl
      _ ≤ ((getPaginationParams q opts).limit.toNat : Int) := by exact_mod_cast hlen
      _ = (getPaginationParams q opts).limit := by
          exact Int.toNat_of_nonneg (le_trans one_pos.le hlim)
  · show (decide ((getPaginationParams q opts).page < _) = true) ↔ _
    rw [decide_eq_true_iff]
    exact lt_ceil_div_iff _ _ _ hlim
  · show (decide (1 < (getPaginationParams q opts).page) = true) ↔ _
    rw [decide_eq_true_iff]

/-! ### Server rows and capacity helpers (config/serverSelection) -/

/-- A row of the `servers` table (the fields the capacity helpers and the
server controller read). -/
structure ServerRow where
  id : Int
  ip : String
  max_activity_monitoring : Int
  cur_activity_monitoring : Int
deriving DecidableEq, Repr

/-- `availableCapacity = max_activity_monitoring - cur_activity_monitoring`. -/
def availableCapacity (s : ServerRow) : Int :=
  s.max_activity_monitoring - s.cur_activity_monitoring

/-- `utilizationPercentage = max > 0 ? cur / max * 100 : 0`. -/
def utilizationPercentage (s : ServerRow) : ℚ :=
  if 0 < s.max_activity_monitoring then
    (s.cur_activity_monitoring : ℚ) / (s.max_activity_monitoring : ℚ) * 100
  else 0

/-- The sort comparator of `selectBestServer` as a strict "comes first"
test: lower utilization first, ties broken by higher available capacity. -/
def betterServer (s t : ServerRow) : Bool :=
  if utilizationPercentage s ≠ utilizationPercentage t then
    decide (utilizationPercentage s < utilizationPercentage t)
  else decide (availableCapacity t < availableCapacity s)

/-- `array.sort(cmp)[0]` for a stable sort: the first element of the list
that no later element strictly beats. -/
def sortFirst (cmp : ServerRow → ServerRow → Bool) :
    List ServerRow → Option ServerRow
  | [] => none
  | a :: rest => some (rest.foldl (fun acc x => if cmp x acc then x else acc) a)

/-- `selectBestServer`: drop excluded ids, drop servers with
`availableCapacity < requiredCapacity`; for analytic type 1 additionally
drop servers with `max_activity_monitoring ≤ 0`; return the first server
of the comparator-sorted remainder, or `none` when nothing remains. -/
def selectBestServer (servers : List ServerRow) (typeAnalyticId : Int)
    (requiredCapacity : Int) (excludeServerIds : List Int) : Option ServerRow :=
  let availableServers :=
    servers.filter (fun s => !(excludeServerIds.contains s.id))
  let serversWithCapacity :=
    availableServers.filter (fun s => decide (requiredCapacity ≤ availableCapacity s))
  if serversWithCapacity.isEmpty then none
  else if typeAnalyticId = 1 then
    let activityMonitoringServers :=
      serversWithCapacity.filter (fun s => decide (0 < s.max_activity_monitoring))
    if activityMonitoringServers.isEmpty then none
    else sortFirst betterServer activityMonitoringServers
  else sortFirst betterServer serversWithCapacity

/-- `prisma.servers.update({where: {id}, data: {cur_activity_monitoring}})`. -/
def updateCur (servers : List ServerRow) (serverId newCur : Int) :
    List ServerRow :=
  servers.map (fun s =>
    if s.id == serverId then { s with cur_activity_monitoring := newCur } else s)

/-- `reserveServerCapacity`: for type 1, refuse when
`cur + capacity > max`, otherwise increment `cur` by `capacity`; any other
type returns `true` without touching the table. Returns the flag together
with the table after the call. -/
def reserveServerCapacity (servers : List ServerRow) (serverId : Int)
    (typeAnalyticId : Int) (capacity : Int) : Bool × List ServerRow :=
  if typeAnalyticId = 1 then
    match servers.find? (fun s => s.id == serverId) with
    | none => (false, servers)
    | some s =>
      if s.max_activity_monitoring < s.cur_activity_monitoring + capacity then
        (false, servers)
      else
        (true, updateCur servers serverId (s.cur_activity_monitoring + capacity))
  else (true, servers)

/-- `releaseServerCapacity`: for type 1, write
`max(0, cur - capacity)`; any other type returns `true` without touching
the table. -/
def releaseServerCapacity (servers : List ServerRow) (serverId : Int)
    (typeAnalyticId : Int) (capacity : Int) : Bool × List ServerRow :=
  if typeAnalyticId = 1 then
    match servers.find? (fun s => s.id == serverId) with
    | none => (false, servers)
    | some s =>
      (true, updateCur servers serverId
        (max 0 (s.cur_activity_monitoring - capacity)))
  else (true, servers)

/-- `checkServerCapacity`: `false` for a missing server; for type 1,
`cur + requiredCapacity ≤ max`; `true` for every other type. -/
def checkServerCapacity (servers : List ServerRow) (serverId : Int)
    (typeAnalyticId : Int) (requiredCapacity : Int) : Bool :=
  match servers.find? (fun s => s.id == serverId) with
  | none => false
  | some s =>
    if typeAnalyticId = 1 then
      decide (s.cur_activity_monitoring + requiredCapacity
        ≤ s.max_activity_monitoring)
    else true

/-- `r` is at least as good as `x` for the selection comparator: no higher
utilization, and on equal utilization no lower available capacity. -/
def serverLE (r x : ServerRow) : Prop :=
  utilizationPercentage r ≤ utilizationPercentage x ∧
    (utilizationPercentage x = utilizationPercentage r →
      availableCapacity x ≤ availableCapacity r)

theorem serverLE_refl (r : ServerRow) : serverLE r r :=
  ⟨le_refl _, fun _ => le_refl _⟩

theorem serverLE_trans {a b c : ServerRow} (hab : serverLE a b)
    (hbc : serverLE b c) : serverLE a c := by
  refine ⟨le_trans hab.1 hbc.1, fun hca => ?_⟩
  have hba : utilizationPercentage b = utilizationPercentage a :=
    le_antisymm (hca ▸ hbc.1) hab.1
  have hcb : utilizationPercentage c = utilizationPercentage b := by
    rw [hba, hca]
  exact le_trans (hbc.2 hcb) (hab.2 hba)

theorem betterServer_eq_false_iff (x r : ServerRow) :
    betterServer x r = false ↔ serverLE r x := by
  unfold betterServer serverLE
  by_cases h : utilizationPercentage x = utilizationPercentage r
  · simp [h, not_lt]
  · simp only [if_pos h, decide_eq_false_iff_not, not_lt]
    constructor
    · intro hle
      exact ⟨hle, fun heq => absurd heq h⟩
    · intro hp
      exact hp.1

theorem betterServer_eq_true_le {x r : ServerRow}
    (h : betterServer x r = true) : serverLE x r := by
  unfold betterServer at h
  by_cases he : utilizationPercentage x = utilizationPercentage r
  · rw [if_neg (by simp [he]), decide_eq_true_iff] at h
    exact ⟨le_of_eq he, fun _ => le_of_lt h⟩
  · rw [if_pos he, decide_eq_true_iff] at h
    exact ⟨le_of_lt h, fun heq => absurd heq.symm he⟩

/-- The fold inside `sortFirst` returns a member of `a :: l` that is at
least as good as every member of `a :: l`. -/
theorem foldlBest_spec (l : List ServerRow) (a : ServerRow) :
    (l.foldl (fun acc x => if betterServer x acc then x else acc) a) ∈ a :: l ∧
    ∀ x ∈ a :: l,
      serverLE (l.foldl (fun acc x => if betterServer x acc then x else acc) a) x := by
  induction l generalizing a with
  | nil => exact ⟨List.mem_singleton_self a, by simpa using serverLE_refl a⟩
  | cons y ys ih =>
    have step : (y :: ys).foldl (fun acc x => if betterServer x acc then x else acc) a
        = ys.foldl (fun acc x => if betterServer x acc then x else acc)
            (if betterServer y a then y else a) := rfl
    rw [step]
    by_cases hb : betterServer y a = true
    · rw [if_pos hb]
      obtain ⟨hmem, hall⟩ := ih y
      have hya : serverLE y a := betterServer_eq_true_le hb
      refine ⟨List.mem_cons_of_mem _ hmem, ?_⟩
      · intro x hx
        rcases List.mem_cons.mp hx with rfl | hx2
        · exact serverLE_trans (hall y (List.mem_cons_self _ _)) hya
        · exact hall x hx2
    · rw [if_neg hb]
      obtain ⟨hmem, hall⟩ := ih a
      have hay : serverLE a y :=
        (betterServer_eq_false_iff y a).mp (Bool.eq_false_iff.mpr hb)
      refine ⟨?_, ?_⟩
      · rcases List.mem_cons.mp hmem with h | h
        · rw [h]; exact List.mem_cons_self _ _
        · exact List.mem_cons_of_mem _ (List.mem_cons_of_mem _ h)
      · intro x hx
        rcases List.mem_cons.mp hx with rfl | hx2
        · exact hall x (List.mem_cons_self _ _)
        · rcases List.mem_cons.mp hx2 with rfl | hx3
          · exact serverLE_trans (hall a (List.mem_cons_self _ _)) hay
          · exact hall x (List.mem_cons_of_mem _ hx3)

theorem sortFirst_eq_none_iff (l : List ServerRow) :
    sortFirst betterServer l = none ↔ l = [] := by
  cases l <;> simp [sortFirst]

theorem sortFirst_spec {l : List ServerRow} {b : ServerRow}
    (h : sortFirst betterServer l = some b) :
    b ∈ l ∧ ∀ x ∈ l, serverLE b x := by
  cases l with
  | nil => simp [sortFirst] at h
  | cons a rest =>
    have hb : b = rest.foldl (fun acc x => if betterServer x acc then x else acc) a := by
      simpa [sortFirst] using h.symm
    obtain ⟨hmem, hall⟩ := foldlBest_spec rest a
    exact ⟨hb ▸ hmem, hb ▸ hall⟩

/-- The rows that survive `selectBestServer`'s two filters: not excluded
and with at least the required available capacity. -/
def remainingServers (servers : List ServerRow) (requiredCapacity : Int)
    (excludeServerIds : List Int) : List ServerRow :=
  servers.filter (fun s =>
    !(excludeServerIds.contains s.id) && decide (requiredCapacity ≤ availableCapacity s))

theorem selectBestServer_filters (servers : List ServerRow)
    (requiredCapacity : Int) (excludeServerIds : List Int) :
    (servers.filter (fun s => !(excludeServerIds.contains s.id))).filter
        (fun s => decide (requiredCapacity ≤ availableCapacity s))
      = remainingServers servers requiredCapacity excludeServerIds := by
  rw [List.filter_filter]
  unfold remainingServers
  exact List.filter_congr (fun a _ => Bool.and_comm _ _)

theorem selectBestServer_eq (servers : List ServerRow)
    (typeAnalyticId requiredCapacity : Int) (excludeServerIds : List Int) :
    selectBestServer servers typeAnalyticId requiredCapacity excludeServerIds =
      if (remainingServers servers requiredCapacity excludeServerIds).isEmpty then
        none
      else if typeAnalyticId = 1 then
        if ((remainingServers servers requiredCapacity excludeServerIds).filter
              (fun s => decide (0 < s.max_activity_monitoring))).isEmpty then none
        else
          sortFirst betterServer
            ((remainingServers servers requiredCapacity excludeServerIds).filter
              (fun s => decide (0 < s.max_activity_monitoring)))
      else sortFirst betterServer (remainingServers servers requiredCapacity excludeServerIds) := by
  unfold selectBestServer
  simp only [selectBestServer_filters]

/-- C2. `selectBestServer` over rows with non-negative current counters and
`requiredCapacity ≥ 1` (the default is 1): excluded ids and servers with
too little available capacity are dropped; the result is `none` exactly
when no server remains, and any returned server has minimal utilization
among the remaining servers, ties broken by maximal available capacity. -/
theorem selectBestServer_spec (servers : List ServerRow)
    (typeAnalyticId requiredCapacity : Int) (excludeServerIds : List Int)
    (hreq : 1 ≤ requiredCapacity)
    (hcur : ∀ s ∈ servers, 0 ≤ s.cur_activity_monitoring) :
    (selectBestServer servers typeAnalyticId requiredCapacity excludeServerIds = none
      ↔ remainingServers servers requiredCapacity excludeServerIds = []) ∧
    ∀ b, selectBestServer servers typeAnalyticId requiredCapacity excludeServerIds
        = some b →
      b ∈ remainingServers servers requiredCapacity excludeServerIds ∧
      ∀ s ∈ remainingServers servers requiredCapacity excludeServerIds,
        utilizationPercentage b ≤ utilizationPercentage s ∧
        (utilizationPercentage s = utilizationPercentage b →
          availableCapacity s ≤ availableCapacity b) := by
  have hmax : ∀ s ∈ remainingServers servers requiredCapacity excludeServerIds,
      decide (0 < s.max_activity_monitoring) = true := by
    intro s hs
    obtain ⟨hsm, hpred⟩ := List.mem_filter.mp hs
    obtain ⟨-, hcap⟩ := Bool.and_eq_true_iff.mp hpred
    have hcap2 : requiredCapacity ≤ availableCapacity s := of_decide_eq_true hcap
    have hcur2 := hcur s hsm
    unfold availableCapacity at hcap2
    rw [decide_eq_true_iff]
    omega
  have hfil : (remainingServers servers requiredCapacity excludeServerIds).filter
      (fun s => decide (0 < s.max_activity_monitoring))
      = remainingServers servers requiredCapacity excludeServerIds :=
    List.filter_eq_self.mpr hmax
  rw [selectBestServer_eq, hfil]
  by_cases hemp : (remainingServers servers requiredCapacity excludeServerIds).isEmpty
  · have hnil : remainingServers servers requiredCapacity excludeServerIds = [] :=
      List.isEmpty_iff.mp hemp
    rw [if_pos hemp]
    exact ⟨by simp [hnil], fun b hb => by simp at hb⟩
  · rw [if_neg hemp]
    by_cases ht : typeAnalyticId = 1
    · rw [if_pos ht, if_neg hemp]
      refine ⟨sortFirst_eq_none_iff _, fun b hb => ?_⟩
      obtain ⟨hmem, hall⟩ := sortFirst_spec hb
      exact ⟨hmem, fun s hs => hall s hs⟩
    · rw [if_neg ht]
      refine ⟨sortFirst_eq_none_iff _, fun b hb => ?_⟩
      obtain ⟨hmem, hall⟩ := sortFirst_spec hb
      exact ⟨hmem, fun s hs => hall s hs⟩

theorem find?_updateCur {servers : List ServerRow} {serverId : Int}
    {s : ServerRow} (v : Int)
    (hs : servers.find? (fun r => r.id == serverId) = some s) :
    (updateCur servers serverId v).find? (fun r => r.id == serverId)
      = some { s with cur_activity_monitoring := v } := by
  induction servers with
  | nil => simp [List.find?] at hs
  | cons a rest ih =>
    by_cases ha : (a.id == serverId) = true
    · have hsa : s = a := by
        rw [List.find?, ha] at hs
        exact (Option.some_inj.mp hs).symm
      unfold updateCur
      rw [List.map_cons, if_pos ha, List.find?]
      simp only [hsa, ha]
    · have ha2 : (a.id == serverId) = false := Bool.eq_false_iff.mpr ha
      rw [List.find?, ha2] at hs
      unfold updateCur
      rw [List.map_cons, if_neg ha, List.find?, ha2]
      exact ih hs

/-- C3. `reserveServerCapacity` for analytic type 1 on an existing server:
when `cur + capacity > max` it returns `false` and the table is unchanged;
when the amount fits it returns `true` and that server's
`cur_activity_monitoring` is incremented by exactly `capacity`. -/
theorem reserveServerCapacity_spec (servers : List ServerRow)
    (serverId capacity : Int) (s : ServerRow)
    (hs : servers.find? (fun r => r.id == serverId) = some s) :
    (s.max_activity_monitoring < s.cur_activity_monitoring + capacity →
      reserveServerCapacity servers serverId 1 capacity = (false, servers)) ∧
    (s.cur_activity_monitoring + capacity ≤ s.max_activity_monitoring →
      (reserveServerCapacity servers serverId 1 capacity).1 = true ∧
      (reserveServerCapacity servers serverId 1 capacity).2.find?
          (fun r => r.id == serverId)
        = some { s with cur_activity_monitoring :=
            s.cur_activity_monitoring + capacity }) := by
  unfold reserveServerCapacity
  rw [if_pos rfl, hs]
  dsimp only
  constructor
  · intro h
    rw [if_pos h]
  · intro h
    rw [if_neg (not_lt.mpr h)]
    exact ⟨rfl, find?_updateCur _ hs⟩

/-- C10. `releaseServerCapacity` for analytic type 1 on an existing server
returns `true` and writes `max(0, cur - capacity)` to that server, so
non-negativity of the current counters is preserved for every row, even
when more capacity is released than is held. -/
theorem releaseServerCapacity_spec (servers : List ServerRow)
    (serverId capacity : Int) (s : ServerRow)
    (hs : servers.find? (fun r => r.id == serverId) = some s) :
    (releaseServerCapacity servers serverId 1 capacity).1 = true ∧
    (releaseServerCapacity servers serverId 1 capacity).2.find?
        (fun r => r.id == serverId)
      = some { s with cur_activity_monitoring :=
          (max 0 (s.cur_activity_monitoring - capacity)) } ∧
    0 ≤ max 0 (s.cur_activity_monitoring - capacity) ∧
    ((∀ r ∈ servers, 0 ≤ r.cur_activity_monitoring) →
      ∀ r ∈ (releaseServerCapacity servers serverId 1 capacity).2,
        0 ≤ r.cur_activity_monitoring) := by
  unfold releaseServerCapacity
  rw [if_pos rfl, hs]
  dsimp only
  refine ⟨rfl, find?_updateCur _ hs, le_max_left _ _, ?_⟩
  intro hall r hr
  obtain ⟨x, hx, hfx⟩ := List.mem_map.mp hr
  by_cases hid : (x.id == serverId) = true
  · rw [if_pos hid] at hfx
    rw [← hfx]
    exact le_max_left _ _
  · rw [if_neg hid] at hfx
    rw [← hfx]
    exact hall x hx

/-- C9 counterexample: analytic types other than 1 do NOT pass through the
capacity dimension of `selectBestServer`. A fully loaded server
(`max = cur = 5`) is not excluded and yet `selectBestServer` for analytic
type 2 returns `none`, because the `availableCapacity ≥ requiredCapacity`
filter runs before the type check. -/
theorem selectBestServer_capacity_counterexample :
    ((2 : Int) ≠ 1) ∧
    ([ServerRow.mk 1 "10.0.0.1" 5 5].filter
        (fun s => !(([] : List Int).contains s.id)) ≠ []) ∧
    selectBestServer [ServerRow.mk 1 "10.0.0.1" 5 5] 2 1 [] = none := by
  refine ⟨by decide, by decide, ?_⟩
  rw [selectBestServer_eq]
  norm_num [remainingServers, availableCapacity, List.filter]

/-- C9 (amended). For every analytic type other than 1:
`checkServerCapacity` returns `true` for an existing server regardless of
its counters, and `reserveServerCapacity` returns `true` without modifying
the table; but in `selectBestServer` the available-capacity filter applies
to every analytic type (type 1 only adds `max_activity_monitoring > 0`):
for such a type the selection is `none` exactly when no non-excluded
server has enough available capacity. -/
theorem capacity_passthrough_spec (servers : List ServerRow)
    (serverId t reqCap cap : Int) (excl : List Int) (s : ServerRow)
    (ht : t ≠ 1)
    (hs : servers.find? (fun r => r.id == serverId) = some s) :
    checkServerCapacity servers serverId t reqCap = true ∧
    reserveServerCapacity servers serverId t cap = (true, servers) ∧
    (selectBestServer servers t reqCap excl = none
      ↔ remainingServers servers reqCap excl = []) := by
  refine ⟨?_, ?_, ?_⟩
  · unfold checkServerCapacity
    rw [hs]
    dsimp only
    rw [if_neg ht]
  · unfold reserveServerCapacity
    rw [if_neg ht]
  · rw [selectBestServer_eq]
    by_cases hemp : (remainingServers servers reqCap excl).isEmpty
    · rw [if_pos hemp]
      simp [List.isEmpty_iff.mp hemp]
    · rw [if_neg hemp, if_neg ht]
      exact sortFirst_eq_none_iff _

/-! ### Server controller: create and delete (server-controller) -/

/-- The request body of `POST /server` before `createServerSchema.parse`:
`description` may be absent or null, the two counters may be absent. -/
structure RawCreateServer where
  ip : String
  description : Option String
  max_activity_monitoring : Option Int
  cur_activity_monitoring : Option Int
deriving DecidableEq, Repr

/-- The body after `createServerSchema.parse`. -/
structure CreateServerInput where
  ip : String
  description : Option String
  max_activity_monitoring : Int
  cur_activity_monitoring : Int
deriving DecidableEq, Repr

/-- `createServerSchema.parse`: the ip must pass zod's `.ip()` format check
(modelled by the oracle `ipOk`, the zod library being an external
collaborator), the counters must be non-negative integers when given and
default to `0` when omitted. -/
def parseCreateServer (ipOk : String → Bool) (r : RawCreateServer) :
    Option CreateServerInput :=
  if ipOk r.ip
      && (match r.max_activity_monitoring with
          | none => true
          | some v => decide (0 ≤ v))
      && (match r.cur_activity_monitoring with
          | none => true
          | some v => decide (0 ≤ v)) then
    some { ip := r.ip, description := r.description,
           max_activity_monitoring := r.max_activity_monitoring.getD 0,
           cur_activity_monitoring := r.cur_activity_monitoring.getD 0 }
  else none

/-- `createServer`: 409 when a server with the same ip exists, otherwise
insert the row (with the database-assigned id `newId`) and answer 201.
Returns the HTTP status with the table after the call. -/
def createServer (servers : List ServerRow) (newId : Int)
    (input : CreateServerInput) : Nat × List ServerRow :=
  match servers.find? (fun s => s.ip == input.ip) with
  | some _ => (409, servers)
  | none =>
    (201, servers ++ [{ id := newId, ip := input.ip,
                        max_activity_monitoring := input.max_activity_monitoring,
                        cur_activity_monitoring := input.cur_activity_monitoring }])

/-- A row of `primary_analytics` (the field `deleteServer` counts by). -/
structure PrimaryAnalyticRow where
  id : Int
  server_id : Int
deriving DecidableEq, Repr

/-- `deleteServer`: 404 for a missing server, 400 (and no change) when the
server has related `primary_analytics` rows, otherwise delete and answer
200. -/
def deleteServer (servers : List ServerRow)
    (analytics : List PrimaryAnalyticRow) (serverId : Int) :
    Nat × List ServerRow :=
  match servers.find? (fun s => s.id == serverId) with
  | none => (404, servers)
  | some _ =>
    if 0 < (analytics.filter (fun a => a.server_id == serverId)).length then
      (400, servers)
    else
      (200, servers.filter (fun s => !(s.id == serverId)))

/-- C4. `createServer` on a payload accepted by `createServerSchema`:
when no existing server has the submitted ip the response is 201, the row
is appended, and `cur_activity_monitoring` defaults to 0 when the field
was omitted; when the ip collides the response is 409 and the table is
unchanged. -/
theorem createServer_spec (ipOk : String → Bool) (raw : RawCreateServer)
    (input : CreateServerInput) (servers : List ServerRow) (newId : Int)
    (hp : parseCreateServer ipOk raw = some input) :
    (servers.find? (fun s => s.ip == input.ip) = none →
      createServer servers newId input
        = (201, servers ++ [{ id := newId, ip := input.ip,
                              max_activity_monitoring := input.max_activity_monitoring,
                              cur_activity_monitoring := input.cur_activity_monitoring }]) ∧
      (raw.cur_activity_monitoring = none →
        input.cur_activity_monitoring = 0)) ∧
    (∀ s0, servers.find? (fun s => s.ip == input.ip) = some s0 →
      createServer servers newId input = (409, servers)) := by
  have hcur : raw.cur_activity_monitoring = none →
      input.cur_activity_monitoring = 0 := by
    intro hraw
    unfold parseCreateServer at hp
    by_cases hc : (ipOk raw.ip
        && (match raw.max_activity_monitoring with
            | none => true
            | some v => decide (0 ≤ v))
        && (match raw.cur_activity_monitoring with
            | none => true
            | some v => decide (0 ≤ v))) = true
    · rw [if_pos hc] at hp
      have := Option.some_inj.mp hp
      rw [← this, hraw]
      rfl
    · rw [if_neg hc] at hp
      exact absurd hp (by simp)
  constructor
  · intro hnone
    unfold createServer
    rw [hnone]
    exact ⟨rfl, hcur⟩
  · intro s0 hsome
    unfold createServer
    rw [hsome]

/-- C5. `deleteServer` on an existing server: when at least one
`primary_analytics` row is attached the response is 400 and the table is
unchanged; the row is removed (status 200) only when the attached count is
zero. -/
theorem deleteServer_spec (servers : List ServerRow)
    (analytics : List PrimaryAnalyticRow) (serverId : Int) (s : ServerRow)
    (hs : servers.find? (fun r => r.id == serverId) = some s) :
    (0 < (analytics.filter (fun a => a.server_id == serverId)).length →
      deleteServer servers analytics serverId = (400, servers)) ∧
    ((analytics.filter (fun a => a.server_id == serverId)).length = 0 →
      deleteServer servers analytics serverId
        = (200, servers.filter (fun r => !(r.id == serverId)))) := by
  unfold deleteServer
  rw [hs]
  dsimp only
  constructor
  · intro h
    rw [if_pos h]
  · intro h
    rw [if_neg (by omega)]

/-! ### Authentication middleware (auth-middleware, security-middleware) -/

/-- What a middleware does with a request: answer with a status, or call
the next handler. -/
inductive MiddlewareResult where
  | respond (status : Nat)
  | callNext
deriving DecidableEq, Repr

structure JwtPayload where
  userId : Int
  email : String
deriving DecidableEq, Repr

structure UserRow where
  id : Int
deriving DecidableEq, Repr

/-- `authenticateToken`: 401 without an `auth_token` cookie (JS falsiness:
an empty cookie value also counts as missing), 403 when `jwt.verify`
throws (modelled by the oracle `jwtVerify` returning `none`), 401 when the
decoded user no longer exists, otherwise `next()`. -/
def authenticateToken (jwtVerify : String → Option JwtPayload)
    (users : List UserRow) (authTokenCookie : Option String) :
    MiddlewareResult :=
  match authTokenCookie with
  | none => .respond 401
  | some tok =>
    if tok = "" then .respond 401
    else
      match jwtVerify tok with
      | none => .respond 403
      | some payload =>
        match users.find? (fun u => u.id == payload.userId) with
        | none => .respond 401
        | some _ => .callNext

/-- The four headers `requireSecurityToken` reads, in its priority order. -/
structure SecurityHeaders where
  xSecurityToken : Option String
  xApiToken : Option String
  authorization : Option String
  xAccessToken : Option String
deriving DecidableEq, Repr

/-- The token environment variables (comma-separated lists, `none` for an
unset variable). -/
structure SecurityEnv where
  REGISTRATION_TOKENS : Option String
  ADMIN_TOKENS : Option String
  SENSITIVE_TOKENS : Option String
  GENERAL_TOKENS : Option String
deriving DecidableEq, Repr

/-- JS `String.prototype.trim`, implemented structurally on the character
list (drop leading and trailing whitespace). -/
def jsTrim (s : String) : String :=
  String.mk
    (((s.data.dropWhile Char.isWhitespace).reverse.dropWhile
      Char.isWhitespace).reverse)

/-- `process.env.X?.split(',').map(t => t.trim()) || []`. -/
def splitTokens (v : Option String) : List String :=
  match v with
  | none => []
  | some s => (s.splitOn ",").map (fun t => jsTrim t)

/-- JS `a || b` on string-valued options: `b` when `a` is absent or the
empty string. -/
def jsOrString (a b : Option String) : Option String :=
  match a with
  | none => b
  | some s => if s = "" then b else some s

/-- JS `String.prototype.replace` with a string pattern: replace only the
first occurrence. -/
def replaceFirst (s pat repl : String) : String :=
  match s.splitOn pat with
  | [] => s
  | [_] => s
  | p :: rest => p ++ repl ++ String.intercalate pat rest

/-- Token extraction of `requireSecurityToken`:
`x-security-token || x-api-token || authorization?.replace('Bearer ', '')
|| x-access-token`. -/
def extractSecurityToken (h : SecurityHeaders) : Option String :=
  jsOrString h.xSecurityToken
    (jsOrString h.xApiToken
      (jsOrString (h.authorization.map (fun a => replaceFirst a "Bearer " ""))
        h.xAccessToken))

/-- `getStaticTokens()[purpose] || []`. -/
def purposeTokens (env : SecurityEnv) (purpose : String) : List String :=
  if purpose = "registration" then splitTokens env.REGISTRATION_TOKENS
  else if purpose = "admin" then splitTokens env.ADMIN_TOKENS
  else if purpose = "sensitive" then splitTokens env.SENSITIVE_TOKENS
  else if purpose = "general" then splitTokens env.GENERAL_TOKENS
  else []

/-- `verifySecurityToken`: with no purpose, membership in the union of all
four lists; with a purpose, membership in that purpose's list. -/
def verifySecurityToken (env : SecurityEnv) (token : String)
    (expectedPurpose : Option String) : Bool :=
  match expectedPurpose with
  | none =>
    (splitTokens env.REGISTRATION_TOKENS ++ splitTokens env.ADMIN_TOKENS
      ++ splitTokens env.SENSITIVE_TOKENS
      ++ splitTokens env.GENERAL_TOKENS).contains token
  | some p => (purposeTokens env p).contains token

/-- `requireSecurityToken(purpose)`: 401 when no (nonempty) token header is
present, 403 when the token fails verification, otherwise `next()`. -/
def requireSecurityToken (env : SecurityEnv) (purpose : Option String)
    (h : SecurityHeaders) : MiddlewareResult :=
  match extractSecurityToken h with
  | none => .respond 401
  | some token =>
    if token = "" then .respond 401
    else if verifySecurityToken env token purpose then .callNext
    else .respond 403

/-- `requireGeneralToken = requireSecurityToken('general')`. -/
def requireGeneralToken (env : SecurityEnv) (h : SecurityHeaders) :
    MiddlewareResult :=
  requireSecurityToken env (some "general") h

/-- C6. Without an `auth_token` cookie, `authenticateToken` answers 401
and never calls the handler; and when a request carries a (nonempty)
security token that is not in the GENERAL_TOKENS list,
`requireGeneralToken` answers 403 and never calls the handler. -/
theorem auth_guards_spec (jwtVerify : String → Option JwtPayload)
    (users : List UserRow) (env : SecurityEnv) (h : SecurityHeaders)
    (tok : String)
    (hc : extractSecurityToken h = some tok) (hne : tok ≠ "")
    (hnot : (splitTokens env.GENERAL_TOKENS).contains tok = false) :
    authenticateToken jwtVerify users none = .respond 401 ∧
    requireGeneralToken env h = .respond 403 := by
  refine ⟨rfl, ?_⟩
  unfold requireGeneralToken requireSecurityToken
  rw [hc]
  dsimp only
  rw [if_neg hne]
  have hv : verifySecurityToken env tok (some "general") = false := by
    unfold verifySecurityToken purposeTokens
    dsimp only
    rw [if_neg (by decide), if_neg (by decide), if_neg (by decide),
      if_pos rfl]
    exact hnot
  rw [hv]
  rfl

/-! ### Sorting helper (utils/sorting) -/

structure SortOptions where
  allowedFields : List String
  defaultField : String
  defaultOrder : String
deriving DecidableEq, Repr

/-- The `sortBy`/`sortOrder` query parameters (`none` for absent). -/
structure SortQuery where
  sortBy : Option String
  sortOrder : Option String
deriving DecidableEq, Repr

/-- `getSortParams`: `field = sortBy && allowed.includes(sortBy) ? sortBy
: defaultField` (the empty string is falsy), `order = sortOrder === 'asc'
|| sortOrder === 'desc' ? sortOrder : defaultOrder`. -/
def getSortParams (q : SortQuery) (opts : SortOptions) : String × String :=
  let field :=
    match q.sortBy with
    | none => opts.defaultField
    | some sb =>
      if sb ≠ "" && opts.allowedFields.contains sb then sb
      else opts.defaultField
  let order :=
    match q.sortOrder with
    | none => opts.defaultOrder
    | some so => if so = "asc" || so = "desc" then so else opts.defaultOrder
  (field, order)

/-- `buildOrderByClause`: the singleton record `{[field]: order}`,
modelled as the field/order pair. -/
def buildOrderByClause (p : String × String) : String × String := p

/-- `handleSorting = buildOrderByClause(getSortParams(req, options))`. -/
def handleSorting (q : SortQuery) (opts : SortOptions) : String × String :=
  buildOrderByClause (getSortParams q opts)

/-- C7 counterexample: a request whose `sortBy` is not in the allow-list
but whose `sortOrder` is the valid value `asc` gets the default field with
order `asc`, not the configured default order `desc`. -/
theorem handleSorting_counterexample :
    (["name"] : List String).contains "bogus" = false ∧
    handleSorting (SortQuery.mk (some "bogus") (some "asc"))
        (SortOptions.mk ["name"] "created_at" "desc")
      = ("created_at", "asc") ∧
    ("created_at", "asc") ≠ (("created_at", "desc") : String × String) := by
  refine ⟨by decide, rfl, by decide⟩

/-- C7 (amended). When `sortBy` is absent or not in the allow-list the
field falls back to the default field; when `sortBy` is a nonempty member
of the allow-list the requested field is used. The order is chosen
independently of the field: the requested `sortOrder` when it is `asc` or
`desc`, the default order otherwise. -/
theorem handleSorting_spec (q : SortQuery) (opts : SortOptions) :
    ((∀ sb, q.sortBy = some sb → opts.allowedFields.contains sb = false) →
      (handleSorting q opts).1 = opts.defaultField) ∧
    (∀ sb, q.sortBy = some sb → sb ≠ "" →
      opts.allowedFields.contains sb = true →
      (handleSorting q opts).1 = sb) ∧
    ((handleSorting q opts).2 =
      match q.sortOrder with
      | none => opts.defaultOrder
      | some so =>
        if so = "asc" || so = "desc" then so else opts.defaultOrder) := by
  unfold handleSorting buildOrderByClause getSortParams
  refine ⟨?_, ?_, rfl⟩
  · intro hinv
    cases hsb : q.sortBy with
    | none => simp [hsb]
    | some sb =>
      have hno : ¬ sb ∈ opts.allowedFields := by
        simpa using hinv sb hsb
      simp [hsb, hno]
  · intro sb hsb hne hmem
    have hmem2 : sb ∈ opts.allowedFields := by
      simpa using hmem
    simp [hsb, hne, hmem2]

/-! ### Search helper (utils/search) -/

inductive SearchMode where
  | modeContains
  | modeStartsWith
  | modeEndsWith
deriving DecidableEq, Repr

structure SearchOptions where
  searchFields : List String
  searchMode : SearchMode
deriving DecidableEq, Repr

structure SearchQuery where
  search : Option String
deriving DecidableEq, Repr

/-- `getSearchParams`: `search?.trim() || undefined` (so a whitespace-only
term trims to the falsy empty string and becomes `undefined`) together
with the configured field list. -/
def getSearchParams (q : SearchQuery) (opts : SearchOptions) :
    Option String × List String :=
  (match q.search with
   | none => none
   | some s => if jsTrim s = "" then none else some (jsTrim s),
   opts.searchFields)

/-- The Prisma where-clause `buildSearchWhereClause` produces: `{}`, a
single-field filter, or an `OR` over the fields. -/
inductive WhereClause where
  | empty
  | single (field : String) (mode : SearchMode) (term : String)
  | orFields (fields : List String) (mode : SearchMode) (term : String)
deriving DecidableEq, Repr

/-- `buildSearchWhereClause`: `{}` without a term, single-field form for a
one-element field list, `OR` form otherwise. -/
def buildSearchWhereClause (params : Option String × List String)
    (opts : SearchOptions) : WhereClause :=
  match params.1 with
  | none => .empty
  | some s =>
    match params.2 with
    | [f] => .single f opts.searchMode s
    | fs => .orFields fs opts.searchMode s

/-- `handleSearch = buildSearchWhereClause(getSearchParams(req, options),
options)`. -/
def handleSearch (q : SearchQuery) (opts : SearchOptions) : WhereClause :=
  buildSearchWhereClause (getSearchParams q opts) opts

/-- Whether a row satisfies a where-clause; the database's evaluation of a
single field condition is the oracle `fieldSat`. `{}` matches every row. -/
def rowMatches {α : Type} (fieldSat : α → String → SearchMode → String → Bool)
    (c : WhereClause) (row : α) : Bool :=
  match c with
  | .empty => true
  | .single f m t => fieldSat row f m t
  | .orFields fs m t => fs.any (fun f => fieldSat row f m t)

/-- The result set of a list query under a where-clause. -/
def applyWhere {α : Type}
    (fieldSat : α → String → SearchMode → String → Bool)
    (c : WhereClause) (rows : List α) : List α :=
  rows.filter (rowMatches fieldSat c)

/-- C8. With an absent, empty or whitespace-only search term,
`handleSearch` yields the empty where-clause, which filters nothing: the
result set equals the unfiltered rows, i.e. the result of a listing with
no search term at all. -/
theorem handleSearch_empty_spec {α : Type}
    (fieldSat : α → String → SearchMode → String → Bool)
    (q : SearchQuery) (opts : SearchOptions) (rows : List α)
    (h : q.search = none ∨ ∃ s, q.search = some s ∧ jsTrim s = "") :
    handleSearch q opts = WhereClause.empty ∧
    applyWhere fieldSat (handleSearch q opts) rows = rows ∧
    applyWhere fieldSat (handleSearch q opts) rows
      = applyWhere fieldSat (handleSearch (SearchQuery.mk none) opts) rows := by
  have hc : handleSearch q opts = WhereClause.empty := by
    unfold handleSearch getSearchParams buildSearchWhereClause
    rcases h with h | ⟨s, hs, ht⟩
    · rw [h]
    · rw [hs]
      dsimp only
      rw [if_pos ht]
  have hid : ∀ q2 : SearchQuery, handleSearch q2 opts = WhereClause.empty →
      applyWhere fieldSat (handleSearch q2 opts) rows = rows := by
    intro q2 h2
    rw [h2]
    unfold applyWhere
    exact List.filter_eq_self.mpr (fun a _ => rfl)
  refine ⟨hc, hid q hc, ?_⟩
  rw [hid q hc, hid (SearchQuery.mk none) rfl]

/-! ### Witnesses: the claim theorems applied at concrete inputs -/

/-- Witness for C2: two servers at 50% and 20% utilization; the 20% one
is selected and is optimal among the remaining servers. -/
theorem selectBestServer_spec_witness :
    (1 : Int) ≤ 1 ∧
    (∀ s ∈ [ServerRow.mk 1 "10.0.0.1" 10 5, ServerRow.mk 2 "10.0.0.2" 10 2],
      0 ≤ s.cur_activity_monitoring) ∧
    selectBestServer [ServerRow.mk 1 "10.0.0.1" 10 5,
        ServerRow.mk 2 "10.0.0.2" 10 2] 1 1 []
      = some (ServerRow.mk 2 "10.0.0.2" 10 2) ∧
    ServerRow.mk 2 "10.0.0.2" 10 2
      ∈ remainingServers [ServerRow.mk 1 "10.0.0.1" 10 5,
          ServerRow.mk 2 "10.0.0.2" 10 2] 1 [] ∧
    ∀ s ∈ remainingServers [ServerRow.mk 1 "10.0.0.1" 10 5,
        ServerRow.mk 2 "10.0.0.2" 10 2] 1 [],
      utilizationPercentage (ServerRow.mk 2 "10.0.0.2" 10 2)
          ≤ utilizationPercentage s ∧
        (utilizationPercentage s
            = utilizationPercentage (ServerRow.mk 2 "10.0.0.2" 10 2) →
          availableCapacity s
            ≤ availableCapacity (ServerRow.mk 2 "10.0.0.2" 10 2)) := by
  have hrem : remainingServers [ServerRow.mk 1 "10.0.0.1" 10 5,
      ServerRow.mk 2 "10.0.0.2" 10 2] 1 []
      = [ServerRow.mk 1 "10.0.0.1" 10 5, ServerRow.mk 2 "10.0.0.2" 10 2] := by
    decide
  have hsel : selectBestServer [ServerRow.mk 1 "10.0.0.1" 10 5,
      ServerRow.mk 2 "10.0.0.2" 10 2] 1 1 []
      = some (ServerRow.mk 2 "10.0.0.2" 10 2) := by
    rw [selectBestServer_eq, hrem]
    norm_num [sortFirst, betterServer, utilizationPercentage,
      availableCapacity, List.filter]
  have h := selectBestServer_spec [ServerRow.mk 1 "10.0.0.1" 10 5,
    ServerRow.mk 2 "10.0.0.2" 10 2] 1 1 [] (by decide) (by decide)
  have hb := h.2 (ServerRow.mk 2 "10.0.0.2" 10 2) hsel
  exact ⟨by decide, by decide, hsel, hb.1, hb.2⟩

/-- Witness for C3: a server at 3 of 5; reserving 10 fails and leaves the
table unchanged, reserving 2 succeeds and sets the counter to 5. -/
theorem reserveServerCapacity_spec_witness :
    [ServerRow.mk 1 "10.0.0.1" 5 3].find? (fun r => r.id == (1 : Int))
      = some (ServerRow.mk 1 "10.0.0.1" 5 3) ∧
    reserveServerCapacity [ServerRow.mk 1 "10.0.0.1" 5 3] 1 1 10
      = (false, [ServerRow.mk 1 "10.0.0.1" 5 3]) ∧
    (reserveServerCapacity [ServerRow.mk 1 "10.0.0.1" 5 3] 1 1 2).1 = true ∧
    (reserveServerCapacity [ServerRow.mk 1 "10.0.0.1" 5 3] 1 1 2).2.find?
        (fun r => r.id == (1 : Int))
      = some (ServerRow.mk 1 "10.0.0.1" 5 5) := by
  have hover := (reserveServerCapacity_spec [ServerRow.mk 1 "10.0.0.1" 5 3]
    1 10 (ServerRow.mk 1 "10.0.0.1" 5 3) (by decide)).1 (by decide)
  have hfit := (reserveServerCapacity_spec [ServerRow.mk 1 "10.0.0.1" 5 3]
    1 2 (ServerRow.mk 1 "10.0.0.1" 5 3) (by decide)).2 (by decide)
  exact ⟨by decide, hover, hfit.1, hfit.2⟩

/-- Witness for C4: creating `10.0.0.5` with `max = 5` and no
`cur_activity_monitoring` answers 201 with the counter defaulted to 0;
creating the same ip again answers 409 and leaves the table unchanged. -/
theorem createServer_spec_witness :
    parseCreateServer (fun _ => true)
        (RawCreateServer.mk "10.0.0.5" none (some 5) none)
      = some (CreateServerInput.mk "10.0.0.5" none 5 0) ∧
    createServer [] 1 (CreateServerInput.mk "10.0.0.5" none 5 0)
      = (201, [ServerRow.mk 1 "10.0.0.5" 5 0]) ∧
    (RawCreateServer.mk "10.0.0.5" none (some 5) none).cur_activity_monitoring
        = none ∧
    (CreateServerInput.mk "10.0.0.5" none 5 0).cur_activity_monitoring = 0 ∧
    createServer [ServerRow.mk 1 "10.0.0.5" 5 0] 2
        (CreateServerInput.mk "10.0.0.5" none 5 0)
      = (409, [ServerRow.mk 1 "10.0.0.5" 5 0]) := by
  have h1 := (createServer_spec (fun _ => true)
    (RawCreateServer.mk "10.0.0.5" none (some 5) none)
    (CreateServerInput.mk "10.0.0.5" none 5 0) [] 1 (by decide)).1 (by decide)
  have h2 := (createServer_spec (fun _ => true)
    (RawCreateServer.mk "10.0.0.5" none (some 5) none)
    (CreateServerInput.mk "10.0.0.5" none 5 0)
    [ServerRow.mk 1 "10.0.0.5" 5 0] 2 (by decide)).2
    (ServerRow.mk 1 "10.0.0.5" 5 0) (by decide)
  exact ⟨by decide, h1.1, rfl, h1.2 rfl, h2⟩

/-- Witness for C5: a server with one attached analytic cannot be deleted
(400, table unchanged); with none attached it is deleted (200). -/
theorem deleteServer_spec_witness :
    [ServerRow.mk 1 "10.0.0.1" 5 0].find? (fun r => r.id == (1 : Int))
      = some (ServerRow.mk 1 "10.0.0.1" 5 0) ∧
    deleteServer [ServerRow.mk 1 "10.0.0.1" 5 0] [PrimaryAnalyticRow.mk 7 1] 1
      = (400, [ServerRow.mk 1 "10.0.0.1" 5 0]) ∧
    deleteServer [ServerRow.mk 1 "10.0.0.1" 5 0] [] 1 = (200, []) := by
  have h400 := (deleteServer_spec [ServerRow.mk 1 "10.0.0.1" 5 0]
    [PrimaryAnalyticRow.mk 7 1] 1 (ServerRow.mk 1 "10.0.0.1" 5 0)
    (by decide)).1 (by decide)
  have h200 := (deleteServer_spec [ServerRow.mk 1 "10.0.0.1" 5 0] [] 1
    (ServerRow.mk 1 "10.0.0.1" 5 0) (by decide)).2 (by decide)
  exact ⟨by decide, h400, h200⟩

/-- Witness for C6: a request with no cookie is answered 401; a request
whose `x-security-token` is `deadbeef` against
`GENERAL_TOKENS="alpha, beta"` is answered 403. -/
theorem auth_guards_spec_witness :
    extractSecurityToken (SecurityHeaders.mk (some "deadbeef") none none none)
      = some "deadbeef" ∧
    ("deadbeef" : String) ≠ "" ∧
    (splitTokens (SecurityEnv.mk none none none none).GENERAL_TOKENS).contains
        "deadbeef" = false ∧
    authenticateToken (fun _ => none) [] none = .respond 401 ∧
    requireGeneralToken (SecurityEnv.mk none none none none)
        (SecurityHeaders.mk (some "deadbeef") none none none)
      = .respond 403 := by
  have h := auth_guards_spec (fun _ => none) []
    (SecurityEnv.mk none none none none)
    (SecurityHeaders.mk (some "deadbeef") none none none)
    "deadbeef" rfl (by decide) rfl
  exact ⟨rfl, by decide, rfl, h.1, h.2⟩

/-- Witness for C7 (amended): with allow-list `["name"]`, default
`created_at desc`: an invalid `sortBy` falls back to `created_at`; a valid
`sortBy=name` is used; an invalid `sortBy` with `sortOrder=asc` still
sorts `asc`. -/
theorem handleSorting_spec_witness :
    (handleSorting (SortQuery.mk (some "bogus") none)
        (SortOptions.mk ["name"] "created_at" "desc")).1 = "created_at" ∧
    (handleSorting (SortQuery.mk (some "name") (some "asc"))
        (SortOptions.mk ["name"] "created_at" "desc")).1 = "name" ∧
    (handleSorting (SortQuery.mk (some "bogus") (some "asc"))
        (SortOptions.mk ["name"] "created_at" "desc")).2 = "asc" := by
  refine ⟨?_, ?_, ?_⟩
  · exact (handleSorting_spec (SortQuery.mk (some "bogus") none)
      (SortOptions.mk ["name"] "created_at" "desc")).1
      (by intro sb hsb; cases hsb; decide)
  · exact (handleSorting_spec (SortQuery.mk (some "name") (some "asc"))
      (SortOptions.mk ["name"] "created_at" "desc")).2.1
      "name" rfl (by decide) (by decide)
  · exact (handleSorting_spec (SortQuery.mk (some "bogus") (some "asc"))
      (SortOptions.mk ["name"] "created_at" "desc")).2.2

/-- Witness for C8: a whitespace-only search term produces the empty
where-clause and filters nothing. -/
theorem handleSearch_empty_spec_witness :
    ((SearchQuery.mk (some "   ")).search = none ∨
      ∃ s, (SearchQuery.mk (some "   ")).search = some s ∧ jsTrim s = "") ∧
    handleSearch (SearchQuery.mk (some "   "))
        (SearchOptions.mk ["name"] SearchMode.modeContains)
      = WhereClause.empty ∧
    applyWhere (fun (_ : Nat) _ _ _ => false)
        (handleSearch (SearchQuery.mk (some "   "))
          (SearchOptions.mk ["name"] SearchMode.modeContains)) [1, 2, 3]
      = [1, 2, 3] ∧
    applyWhere (fun (_ : Nat) _ _ _ => false)
        (handleSearch (SearchQuery.mk (some "   "))
          (SearchOptions.mk ["name"] SearchMode.modeContains)) [1, 2, 3]
      = applyWhere (fun (_ : Nat) _ _ _ => false)
          (handleSearch (SearchQuery.mk none)
            (SearchOptions.mk ["name"] SearchMode.modeContains)) [1, 2, 3] := by
  have h := handleSearch_empty_spec (fun (_ : Nat) _ _ _ => false)
    (SearchQuery.mk (some "   "))
    (SearchOptions.mk ["name"] SearchMode.modeContains) [1, 2, 3]
    (Or.inr ⟨"   ", rfl, by decide⟩)
  exact ⟨Or.inr ⟨"   ", rfl, by decide⟩, h.1, h.2.1, h.2.2⟩

/-- Witness for C9 (amended): a fully loaded server and analytic type 2:
the capacity check and the reservation pass through, and the selection's
capacity filter leaves nothing. -/
theorem capacity_passthrough_spec_witness :
    ((2 : Int) ≠ 1) ∧
    [ServerRow.mk 1 "10.0.0.9" 5 5].find? (fun r => r.id == (1 : Int))
      = some (ServerRow.mk 1 "10.0.0.9" 5 5) ∧
    checkServerCapacity [ServerRow.mk 1 "10.0.0.9" 5 5] 1 2 1 = true ∧
    reserveServerCapacity [ServerRow.mk 1 "10.0.0.9" 5 5] 1 2 3
      = (true, [ServerRow.mk 1 "10.0.0.9" 5 5]) ∧
    (selectBestServer [ServerRow.mk 1 "10.0.0.9" 5 5] 2 1 [] = none
      ↔ remainingServers [ServerRow.mk 1 "10.0.0.9" 5 5] 1 [] = []) := by
  have h := capacity_passthrough_spec [ServerRow.mk 1 "10.0.0.9" 5 5]
    1 2 1 3 [] (ServerRow.mk 1 "10.0.0.9" 5 5) (by decide) (by decide)
  exact ⟨by decide, by decide, h.1, h.2.1, h.2.2⟩

/-- Witness for C10: releasing 7 from a server holding 2 of 5 returns
`true` and clamps the counter at 0. -/
theorem releaseServerCapacity_spec_witness :
    [ServerRow.mk 1 "10.0.0.1" 5 2].find? (fun r => r.id == (1 : Int))
      = some (ServerRow.mk 1 "10.0.0.1" 5 2) ∧
    (releaseServerCapacity [ServerRow.mk 1 "10.0.0.1" 5 2] 1 1 7).1 = true ∧
    (releaseServerCapacity [ServerRow.mk 1 "10.0.0.1" 5 2] 1 1 7).2.find?
        (fun r => r.id == (1 : Int))
      = some (ServerRow.mk 1 "10.0.0.1" 5 0) ∧
    (0 : Int) ≤ max 0 ((2 : Int) - 7) ∧
    ∀ r ∈ (releaseServerCapacity [ServerRow.mk 1 "10.0.0.1" 5 2] 1 1 7).2,
      0 ≤ r.cur_activity_monitoring := by
  have h := releaseServerCapacity_spec [ServerRow.mk 1 "10.0.0.1" 5 2]
    1 7 (ServerRow.mk 1 "10.0.0.1" 5 2) (by decide)
  exact ⟨by decide, h.1, h.2.1, h.2.2.1, h.2.2.2 (by decide)⟩

end Backend
